import Mathlib

/-!
Shallow embedding of the orchestration core of the `ai-agent-server` repository:
the mutating-action workflow (`app/tools/base.py`), the concrete action tools
(`app/tools/actions/tools.py`), the token quota ledger (`app/tokens/limiter.py`),
the budget allocator (`app/agents/router/budget_allocator.py`) and the intent
router (`app/agents/router/*.py`).

Modelling conventions:
- Python dynamic values appearing in tool parameters and payloads are embedded
  as the inductive `Value`.
- Database reads and writes are oracles: each tool takes a record of functions
  standing for the results its SQL queries would return; a write that can raise
  is an `Except String` value.
- Python exceptions are `Except String`; a tool-method body that can raise is a
  function into `Except String ActionResult`.
- Redis counters are natural numbers (the counters only ever hold non-negative
  integers: `INCRBY` with non-negative amounts, `SET` of non-negative limits).
- Wall-clock fields (`duration_ms`, timestamps) are omitted: no claim mentions
  them and they are real-time measurements.
-/

/-- Embedded Python value for tool parameters and result payloads. -/
inductive Value where
  | vNull
  | vBool (b : Bool)
  | vInt (n : Int)
  | vRat (q : ℚ)
  | vStr (s : String)
  | vList (xs : List Value)
  | vDict (kvs : List (String × Value))

/-- Python truthiness (`bool(v)`), used by the `or` chains in `_parse_items`. -/
def pyTruthy : Value → Bool
  | Value.vNull => false
  | Value.vBool b => b
  | Value.vInt n => n != 0
  | Value.vRat q => q != 0
  | Value.vStr s => s != ""
  | Value.vList xs => !xs.isEmpty
  | Value.vDict kvs => !kvs.isEmpty

/-- Rendering of a value inside an f-string (`str(v)`), for the fields that do
appear in confirmation messages.  Container rendering is abbreviated to the
element renderings; no claim reads a message built from a container. -/
def pyStr : Value → String
  | Value.vNull => "None"
  | Value.vBool b => if b then "True" else "False"
  | Value.vInt n => toString n
  | Value.vRat q => toString q
  | Value.vStr s => s
  | Value.vList xs => String.intercalate ", " (xs.map (fun _ => "..."))
  | Value.vDict _ => "..."

/-- Python `repr` of a list of strings, as f-strings render
`self.required_roles` in the permission-denied messages. -/
def pyListRepr (xs : List String) : String :=
  "[" ++ String.intercalate ", " (xs.map (fun s => "\x27" ++ s ++ "\x27")) ++ "]"

/-- Keyword-argument assignment passed to `run_action(**kwargs)`: an
association list from parameter name to value. -/
def Params := List (String × Value)

/-- Look up a keyword argument. -/
def Params.get (p : Params) (k : String) : Option Value :=
  List.lookup k p

/-- Which of the two `validate_inputs` conditions a field fails:
`field_name not in kwargs or kwargs[field_name] is None`. -/
def fieldMissing (p : Params) (f : String) : Bool :=
  match p.get f with
  | none => true
  | some Value.vNull => true
  | some _ => false

/-- `ActionStatus` enumeration from `app/tools/base.py`. -/
inductive ActionStatus where
  | missing_data
  | pending_confirmation
  | confirmed
  | executed
  | cancelled
deriving DecidableEq, Repr

/-- `ActionResult` dataclass from `app/tools/base.py` (minus `duration_ms`,
a wall-clock measurement). -/
structure ActionResult where
  status : ActionStatus
  success : Bool := true
  data : Option Value := none
  error : Option String := none
  missing_fields : List String := []
  prompt_message : Option String := none
  preview_data : Option Value := none
  confirmation_message : Option String := none
  result_message : Option String := none
  created_id : Option String := none

/-- Events recording, in order, which internal steps `run_action` performed.
Database access happens only inside a tool's `preview`/`confirm` bodies, so a
trace without `previewCall`/`confirmCall` performed no database access. -/
inductive WfEvent where
  | validate
  | previewCall
  | confirmCall
deriving DecidableEq, Repr

/-- Static description plus behaviour of a registered `ActionTool` subclass:
its declared metadata and its `preview`/`confirm` methods (which may raise). -/
structure ActionToolSpec where
  name : String
  required_roles : List String
  required_fields : List String
  field_descriptions : List (String × String)
  preview : Params → Except String ActionResult
  confirm : Params → Except String ActionResult

/-- `BaseTool.check_permission` from `app/tools/base.py`. -/
def check_permission (required_roles : List String) (role : String) : Bool :=
  if required_roles.isEmpty then true
  else if role == "admin" then true
  else required_roles.contains role

/-- `ActionTool.validate_inputs`: returns `(is_valid, missing_fields)`, the
missing fields in declaration order. -/
def validate_inputs (required_fields : List String) (p : Params) : Bool × List String :=
  let missing := required_fields.filter (fun f => fieldMissing p f)
  (missing.isEmpty, missing)

/-- `ActionTool.get_missing_fields_prompt`. -/
def get_missing_fields_prompt (field_descriptions : List (String × String))
    (missing : List String) : String :=
  match missing with
  | [f] =>
      let desc := (List.lookup f field_descriptions).getD f
      s!"I need the {desc} to proceed. What is it?"
  | _ =>
      let descs := missing.map (fun f => (List.lookup f field_descriptions).getD f)
      let field_list := String.intercalate ", " descs
      s!"I need a few more details: {field_list}. Please provide them."

/-- `ActionTool.run_action` from `app/tools/base.py`, lines 233-284, paired
with the trace of internal steps it performed.  The Python `try` block around
validation/preview/confirm maps exceptions (`Except.error`) to the CANCELLED
result of the `except` clause; the function is total by construction, which is
the engine-boundary totality of the source (every path returns an
`ActionResult`). -/
def run_action (t : ActionToolSpec) (role : String) (confirmed : Bool)
    (p : Params) : ActionResult × List WfEvent :=
  if !(check_permission t.required_roles role) then
    ({ status := ActionStatus.cancelled, success := false,
       error := some ("Permission denied. Required roles: " ++ pyListRepr t.required_roles) },
     [])
  else
    -- Step 1: Validate inputs
    let v := validate_inputs t.required_fields p
    if !v.1 then
      ({ status := ActionStatus.missing_data, success := true,
         missing_fields := v.2,
         prompt_message := some (get_missing_fields_prompt t.field_descriptions v.2) },
       [WfEvent.validate])
    -- Step 2: If not confirmed, return preview
    else if !confirmed then
      match t.preview p with
      | Except.ok r => (r, [WfEvent.validate, WfEvent.previewCall])
      | Except.error e =>
          ({ status := ActionStatus.cancelled, success := false, error := some e },
           [WfEvent.validate, WfEvent.previewCall])
    -- Step 3: Execute confirmed action
    else
      match t.confirm p with
      | Except.ok r => (r, [WfEvent.validate, WfEvent.confirmCall])
      | Except.error e =>
          ({ status := ActionStatus.cancelled, success := false, error := some e },
           [WfEvent.validate, WfEvent.confirmCall])

/-! ## Token quota ledger (`app/tokens/limiter.py`) -/

/-- `settings.default_org_token_limit` from `app/config/settings.py`. -/
def default_org_token_limit : Nat := 1000000

/-- `TokenQuota` dataclass.  `percentage_used` is kept as an exact rational;
the source rounds it to two decimals for display (`round(percentage, 2)`),
which no verified property reads. -/
structure TokenQuota where
  org_id : String
  used : Nat
  limit : Nat
  remaining : Nat
  percentage_used : ℚ

/-- `TokenLimiter.get_quota`: the two raw Redis reads (`None` when the key is
absent) become the quota record.  `remaining = max(0, limit - used)` is natural
subtraction. -/
def get_quota (org_id : String) (usedRaw limitRaw : Option Nat) : TokenQuota :=
  let used := usedRaw.getD 0
  let limit := limitRaw.getD default_org_token_limit
  let remaining := limit - used
  let percentage : ℚ := if limit > 0 then (used : ℚ) / (limit : ℚ) * 100 else 100
  { org_id := org_id, used := used, limit := limit,
    remaining := remaining, percentage_used := percentage }

/-- Outcome of `TokenLimiter.check_quota`: normal return `True`, or the raised
`QuotaExceededError` with its message. -/
inductive CheckQuotaResult where
  | ok
  | quotaExceeded (msg : String)
deriving DecidableEq, Repr

/-- Whether a `check_quota` outcome is the raised `QuotaExceededError`. -/
def isQuotaExceeded : CheckQuotaResult → Bool
  | CheckQuotaResult.ok => false
  | CheckQuotaResult.quotaExceeded _ => true

/-- Buffer-adjusted requirement `int(estimated_tokens * (1 + settings.token_reserve_buffer))`
with the default buffer `0.1`, modelled as the truncation `11 * e / 10`.
This equals the source's IEEE-754 double computation exactly for every
estimate `e < 2^46`: `1 + 0.1` rounds to the double
`c = 11/10 + 1/(5 * 2^51)`, so the exact product is
`e * c = floor(11e/10) + r/10 + e/(5 * 2^51)` with `r = e mod 10 ≤ 9`; for
`e < 2^46` the product is below `2^47`, where half an ulp is at most `2^-7`,
and `9/10 + 1/160 + 1/128 < 1` keeps round-to-nearest inside
`[floor(11e/10), floor(11e/10) + 1)` (the floor itself is representable, so
rounding cannot drop below it), hence Python's truncation gives exactly
`11 * e / 10`.  Beyond that range the rounded product can cross the next
integer (for example at `e = 511772684928469` the double arithmetic yields
`floor(11e/10) + 1`), so every theorem quantifying over estimates carries an
`e < 2^46` bound. -/
def requiredWithBuffer (estimated : Nat) : Nat :=
  estimated * 11 / 10

/-- `TokenLimiter.check_quota` (`app/tokens/limiter.py`, lines 93-118). -/
def check_quota (org_id : String) (usedRaw limitRaw : Option Nat)
    (estimated_tokens : Nat) : CheckQuotaResult :=
  let quota := get_quota org_id usedRaw limitRaw
  let required := requiredWithBuffer estimated_tokens
  if quota.remaining < required then
    CheckQuotaResult.quotaExceeded
      (s!"Token quota exceeded. Used: {quota.used}/{quota.limit}. " ++
       s!"Remaining: {quota.remaining}")
  else
    CheckQuotaResult.ok

/-! ## Budget allocator (`app/agents/router/budget_allocator.py`) -/

/-- `BudgetAllocation` dataclass. -/
structure BudgetAllocation where
  total_budget : Nat
  routing_budget : Nat
  agent_budget : Nat
  reserve : Nat
  warning : Option String := none

/-- `TASK_BUDGETS` table. -/
def TASK_BUDGETS : List (String × Nat) :=
  [("routing", 500), ("analytics", 8000), ("orders", 6000),
   ("inventory", 5000), ("general", 3000), ("complex", 15000)]

/-- Complexity multiplier applied as `int(base_budget * multiplier)` with
multipliers `{"low": 0.7, "medium": 1.0, "high": 1.5}` and default `1.0`.
For each of the six table budgets the IEEE-754 double products are exactly the
rational values below (each `base * 0.7` and `base * 1.5` is an integer whose
floating-point product rounds to that integer), so truncation is exact
division. -/
def applyMultiplier (base : Nat) (complexity : String) : Nat :=
  if complexity == "low" then base * 7 / 10
  else if complexity == "high" then base * 3 / 2
  else base

/-- `allocate_budget` (`app/agents/router/budget_allocator.py`, lines 37-84).
The ledger read `limiter.get_quota()` is the `get_quota` of the raw counter
values passed in.  The reserve `int(requested_budget * 0.1)` is modelled as
the truncation `requested / 10`; by the same rounding analysis as
`requiredWithBuffer` the double product truncates to exactly that for every
(possibly clamped) budget below `2^46`, astronomically beyond the table
budgets (at most 22500 after the multiplier), though a clamp to a huge
remaining quota could in principle exceed it — the verified invariants (the
three-way split telescoping to the total, and the clamp to remaining) hold of
the source for any reserve value and do not depend on this idealization.
The percentage in the 80%-warning message is rendered from the exact rational
rather than the source's `:.1f` float formatting; no claim reads the
warning. -/
def allocate_budget (org_id : String) (usedRaw limitRaw : Option Nat)
    (task_type : String) (complexity : String) : BudgetAllocation :=
  let quota := get_quota org_id usedRaw limitRaw
  let base_budget := (List.lookup task_type TASK_BUDGETS).getD
    ((List.lookup "general" TASK_BUDGETS).getD 0)
  let requested_budget := applyMultiplier base_budget complexity
  let available := quota.remaining
  let clamped := requested_budget > available
  let requested := if clamped then available else requested_budget
  let warning0 : Option String :=
    if clamped then
      some s!"Budget reduced from {requested_budget} to {available} due to quota limits"
    else none
  let warning :=
    if quota.percentage_used > 80 then
      some ("Warning: " ++ toString quota.percentage_used ++ "% of token quota used")
    else warning0
  let routing_budget := min 500 (requested / 10)
  let agent_budget := requested - routing_budget
  let reserve := requested / 10
  { total_budget := requested,
    routing_budget := routing_budget,
    agent_budget := agent_budget - reserve,
    reserve := reserve,
    warning := warning }

/-! ## Intent router (`app/agents/router/intent_classifier.py`, `router_agent.py`) -/

/-- Structured output of the classification call (`IntentClassification`).
The confidence float in `[0,1]` is embedded as a rational. -/
structure IntentClassification where
  intent : String
  confidence : ℚ
  reasoning : String

/-- `INTENT_AGENT_MAP` from `app/agents/router/intent_classifier.py`. -/
def INTENT_AGENT_MAP : List (String × String) :=
  [("analytics", "analytics_agent"),
   ("inventory", "inventory_agent"),
   ("orders", "orders_agent"),
   ("insights", "analytics_agent"),
   ("general", "general_agent")]

/-- `get_agent_for_intent`: dictionary lookup with default `"general_agent"`. -/
def get_agent_for_intent (intent : String) : String :=
  (List.lookup intent INTENT_AGENT_MAP).getD "general_agent"

/-- The slice of the LangGraph `AgentState` dictionary that `classify_node`
touches. -/
structure RouterState where
  input : String
  intent : Option String := none
  agent : Option String := none
  error : Option String := none

/-- `classify_node` from `app/agents/router/router_agent.py`, lines 24-40.
The awaited `classify_intent(...)` call is the `classification` oracle: its
normal return or the exception it raised.  The `except` clause swallows any
exception and installs the defaults. -/
def classify_node (st : RouterState) (classification : Except String IntentClassification) :
    RouterState :=
  match classification with
  | Except.ok c =>
      { st with intent := some c.intent, agent := some (get_agent_for_intent c.intent) }
  | Except.error _ =>
      { st with intent := some "general", agent := some "general_agent" }

/-- `route_decision` from `app/agents/router/router_agent.py`, lines 95-109. -/
def route_decision (st : RouterState) : String :=
  let agent := st.agent.getD "general_agent"
  if st.error.isSome then "end"
  else if agent == "analytics_agent" then "analytics"
  else if agent == "inventory_agent" then "inventory"
  else if agent == "orders_agent" then "orders"
  else "general"

/-! ## Metering trace model

Events of the quota ledger and of the metered external inference calls, in the
order the turn performs them.  Sources:
- `classify_intent` (`app/agents/router/intent_classifier.py`, lines 57-72)
  builds a model via `get_model_for_task("routing")` and awaits
  `model.ainvoke(messages)`; it constructs no `TokenLimiter` and registers no
  `TokenTrackingCallback`, so its trace is a bare metered call.
- `BaseAgent.invoke_llm` (`app/agents/base/agent.py`, lines 131-170) awaits
  `model.ainvoke`, then `limiter.record_usage(usage, ...)`, which atomically
  increments the counter and (with the default `emit_event=True`) publishes the
  usage event.
- `BaseAgent.run` (`app/agents/base/agent.py`, lines 65-129) awaits
  `limiter.check_quota(context.token_budget)` first and returns early on
  `QuotaExceededError`; otherwise it runs the subclass `execute`, whose
  external inference calls all go through `invoke_llm`. -/
inductive MeterEvent where
  | checkQuotaEv (ok : Bool)
  | llmCallEv
  | recordUsageEv
  | emitEventEv
deriving DecidableEq, Repr

/-- Trace of `classify_intent`: the metered classification call, unwrapped. -/
def classify_intent_meter_trace : List MeterEvent :=
  [MeterEvent.llmCallEv]

/-- Trace of one `BaseAgent.invoke_llm` call. -/
def invoke_llm_meter_trace : List MeterEvent :=
  [MeterEvent.llmCallEv, MeterEvent.recordUsageEv, MeterEvent.emitEventEv]

/-- Trace of a handler `execute` body that performs `n` external inference
calls, each through `BaseAgent.invoke_llm`. -/
def handler_calls_trace : Nat → List MeterEvent
  | 0 => []
  | n + 1 => invoke_llm_meter_trace ++ handler_calls_trace n

/-- Trace of `BaseAgent.run`: the admission check, then (only when it passed)
the handler body's calls. -/
def base_agent_run_trace (quotaOk : Bool) (llmCalls : Nat) : List MeterEvent :=
  if quotaOk then MeterEvent.checkQuotaEv true :: handler_calls_trace llmCalls
  else [MeterEvent.checkQuotaEv false]

/-- Metering trace of one full router turn (`create_router_graph`):
`classify` → `allocate_budget` (a plain quota read, not an admission check) →
the conditional edge `route_decision`.  The specialist routes run a
`BaseAgent.run`; the `general` route (`route_to_general`) emits a static
template with no metered call, and the `end` route runs nothing. -/
def turn_meter_trace (st : RouterState) (quotaOk : Bool) (llmCalls : Nat) :
    List MeterEvent :=
  classify_intent_meter_trace ++
    (let route := route_decision st
     if route == "analytics" || route == "inventory" || route == "orders" then
       base_agent_run_trace quotaOk llmCalls
     else [])

/-- The wrapping property claimed of metered calls: every metered external
inference call in a trace has a completed admission check strictly before it
and a usage recording strictly after it. -/
def llmWrapped (tr : List MeterEvent) : Prop :=
  ∀ i, tr.get? i = some MeterEvent.llmCallEv →
    (∃ j, j < i ∧ ∃ ok, tr.get? j = some (MeterEvent.checkQuotaEv ok)) ∧
    (∃ k, i < k ∧ tr.get? k = some MeterEvent.recordUsageEv)

/-! ## Concrete action tools (`app/tools/actions/tools.py`)

Each tool takes an oracle record whose fields stand for the results of the SQL
statements the tool issues (scoped to the tool's organisation); a field of type
`Except _ _` is a write whose execution may raise.  The keyword-argument
binding of `preview(**kwargs)` / `confirm(**kwargs)` is a `bind...Args`
function returning `Except.error` exactly where the Python call would raise
(unexpected keyword, missing positional, or a parameter the database driver
rejects for the typed SQL placeholder); such an error propagates to
`run_action`'s `except` clause. -/

/-- Substring test (Python `in` on strings). -/
def containsSubstr (s sub : String) : Bool :=
  (List.range (s.data.length + 1)).any (fun i => sub.data.isPrefixOf (s.data.drop i))

/-- Row of the `Product` lookups in `CreateReorderRequestTool`. -/
structure ProductRow where
  product_id : Int
  name : String
  sku : String

/-- Row of the `Warehouse` lookups. -/
structure WarehouseRow where
  warehouse_id : Int
  name : String

/-- Query oracles of `CreateReorderRequestTool`. -/
structure ReorderDb where
  productExact : String → Option ProductRow
  productFuzzy : String → Option ProductRow
  warehouseExact : String → Option WarehouseRow
  warehouseFuzzy : String → Option WarehouseRow
  productNames : List String
  warehouseNames : List String
  stockQty : Int → Int → Option Int
  insertReorder : Except String (Option Int)

/-- `CreateReorderRequestTool._lookup_product`: exact match first, then the
`ILIKE` fuzzy match. -/
def reorder_lookup_product (db : ReorderDb) (product_name : String) : Option ProductRow :=
  match db.productExact product_name with
  | some p => some p
  | none => db.productFuzzy product_name

/-- `CreateReorderRequestTool._lookup_warehouse`. -/
def reorder_lookup_warehouse (db : ReorderDb) (warehouse_name : String) : Option WarehouseRow :=
  match db.warehouseExact warehouse_name with
  | some w => some w
  | none => db.warehouseFuzzy warehouse_name

/-- Keyword arguments accepted by the reorder tool's `preview`/`confirm`. -/
def reorderKwargs : List String :=
  ["product_name", "warehouse_name", "quantity", "priority", "notes"]

/-- Binding of `**kwargs` onto the reorder tool's method signature, with
defaults `priority="normal"`, `notes=None`.  The name parameters and
`priority` must be text (`LOWER($2)` / `priority.upper()`); `quantity` and
`notes` flow through unexamined. -/
def bindReorderArgs (p : Params) :
    Except String (String × String × Value × String × Value) :=
  if p.any (fun kv => !(reorderKwargs.contains kv.1)) then
    Except.error "TypeError: got an unexpected keyword argument"
  else
    match p.get "product_name", p.get "warehouse_name", p.get "quantity" with
    | some (Value.vStr pn), some (Value.vStr wn), some q =>
        (match (p.get "priority").getD (Value.vStr "normal") with
         | Value.vStr pr =>
             Except.ok (pn, wn, q, pr, (p.get "notes").getD Value.vNull)
         | _ => Except.error "AttributeError: upper")
    | some _, some _, some _ => Except.error "DataError: invalid text parameter"
    | _, _, _ => Except.error "TypeError: missing a required argument"

/-- `CreateReorderRequestTool.preview` (`app/tools/actions/tools.py`,
lines 78-164). -/
def reorder_preview (db : ReorderDb) (product_name warehouse_name : String)
    (quantity : Value) (priority : String) (notes : Value) : ActionResult :=
  match reorder_lookup_product db product_name with
  | none =>
      let suggestion_names := db.productNames
      let base_msg := s!"Product \x27{product_name}\x27 not found."
      let picked := String.intercalate ", " (suggestion_names.take 3)
      let error_msg :=
        if !suggestion_names.isEmpty then base_msg ++ s!" Did you mean: {picked}?"
        else base_msg
      { status := ActionStatus.cancelled, success := false, error := some error_msg }
  | some product =>
      match reorder_lookup_warehouse db warehouse_name with
      | none =>
          let suggestion_names := db.warehouseNames
          let base_msg := s!"Warehouse \x27{warehouse_name}\x27 not found."
          let listed := String.intercalate ", " suggestion_names
          let error_msg :=
            if !suggestion_names.isEmpty then base_msg ++ s!" Available warehouses: {listed}"
            else base_msg
          { status := ActionStatus.cancelled, success := false, error := some error_msg }
      | some warehouse =>
          let current_qty := (db.stockQty product.product_id warehouse.warehouse_id).getD 0
          let preview_data := Value.vDict
            [("product_id", Value.vStr (toString product.product_id)),
             ("product_name", Value.vStr product.name),
             ("product_sku", Value.vStr product.sku),
             ("warehouse_id", Value.vStr (toString warehouse.warehouse_id)),
             ("warehouse_name", Value.vStr warehouse.name),
             ("current_stock", Value.vInt current_qty),
             ("quantity_to_order", quantity),
             ("priority", Value.vStr priority),
             ("notes", notes)]
          let qstr := pyStr quantity
          let pname := product.name
          let psku := product.sku
          let wname := warehouse.name
          let cq := toString current_qty
          let prio := priority.toUpper
          let confirmation_msg :=
            s!"Create reorder request for **{qstr} units** of " ++
            s!"**{pname}** ({psku}) " ++
            s!"to be delivered to **{wname}**?\n\n" ++
            s!"Current stock: {cq} units\n" ++
            s!"Priority: {prio}"
          { status := ActionStatus.pending_confirmation, success := true,
            preview_data := some preview_data,
            confirmation_message := some confirmation_msg }

/-- `CreateReorderRequestTool.confirm` (`app/tools/actions/tools.py`,
lines 166-233).  The `raise` at the end of the `except` clause re-raises, so
the unmatched write error is an `Except.error` that `run_action` will catch. -/
def reorder_confirm (db : ReorderDb) (product_name warehouse_name : String)
    (quantity : Value) (priority : String) (_notes : Value) :
    Except String ActionResult :=
  match reorder_lookup_product db product_name, reorder_lookup_warehouse db warehouse_name with
  | some product, some warehouse =>
      (match db.insertReorder with
       | Except.ok row =>
           let ridStr := match row with
             | some i => toString i
             | none => "None"
           let created : Option String := match row with
             | some i => if i == 0 then none else some (toString i)
             | none => none
           let createdVal : Value := match created with
             | some s => Value.vStr s
             | none => Value.vNull
           let pname := product.name
           let wname := warehouse.name
           Except.ok
             { status := ActionStatus.executed, success := true,
               created_id := created,
               result_message :=
                 some s!"Reorder request #{ridStr} created for {pname} → {wname}",
               data := some (Value.vDict
                 [("reorder_request_id", createdVal),
                  ("product_name", Value.vStr product.name),
                  ("warehouse_name", Value.vStr warehouse.name),
                  ("quantity", quantity),
                  ("priority", Value.vStr priority),
                  ("status", Value.vStr "pending")]) }
       | Except.error e =>
           if containsSubstr e "ReorderRequest" && containsSubstr e "does not exist" then
             Except.ok
               { status := ActionStatus.cancelled, success := false,
                 error := some ("Reorder request functionality requires database migration. " ++
                   "Please create the ReorderRequest table first.") }
           else Except.error e)
  | _, _ =>
      Except.ok
        { status := ActionStatus.cancelled, success := false,
          error := some "Product or warehouse not found" }

/-- The registered `create_reorder_request` tool. -/
def createReorderRequestTool (db : ReorderDb) : ActionToolSpec :=
  { name := "create_reorder_request",
    required_roles := ["admin", "manager"],
    required_fields := ["product_name", "warehouse_name", "quantity"],
    field_descriptions :=
      [("product_name", "name of the product to reorder"),
       ("warehouse_name", "name of the destination warehouse"),
       ("quantity", "quantity to order"),
       ("priority", "priority level (normal or urgent)")],
    preview := fun p =>
      (bindReorderArgs p).map (fun a => reorder_preview db a.1 a.2.1 a.2.2.1 a.2.2.2.1 a.2.2.2.2),
    confirm := fun p =>
      (bindReorderArgs p).bind (fun a => reorder_confirm db a.1 a.2.1 a.2.2.1 a.2.2.2.1 a.2.2.2.2) }

/-- Two-decimal money rendering used by the `${...:,.2f}` f-string fields.
Thousands separators are omitted; no verified property reads these strings. -/
def fmtMoney (q : ℚ) : String :=
  let cents : Int := Int.floor (q * 100 + 1 / 2)
  let whole := cents / 100
  let frac := (cents % 100).natAbs
  toString whole ++ "." ++ (if frac < 10 then "0" else "") ++ toString frac

/-- Row of the `Order` lookup in `UpdateOrderStatusTool.preview`; `order_date`
is carried as its `isoformat()` rendering. -/
structure OrderRow where
  order_id : Int
  customer_name : String
  customer_email : String
  status : String
  total_amount : Option ℚ
  order_date : Option String

/-- Query oracles of `UpdateOrderStatusTool`; `nowIso` is the
`datetime.now(timezone.utc).isoformat()` read in `confirm`. -/
structure UpdateOrderDb where
  getOrder : Int → Option OrderRow
  updateOrder : Except String Unit
  nowIso : String

/-- `UpdateOrderStatusTool.VALID_STATUSES`. -/
def VALID_STATUSES : List String :=
  ["pending", "processing", "shipped", "delivered", "cancelled"]

/-- Binding of `**kwargs` onto `(order_id: int, new_status: str, notes=None)`.
`order_id` feeds an integer SQL placeholder and `new_status.lower()` requires
text. -/
def bindUpdateOrderArgs (p : Params) : Except String (Int × String × Value) :=
  if p.any (fun kv => !(["order_id", "new_status", "notes"].contains kv.1)) then
    Except.error "TypeError: got an unexpected keyword argument"
  else
    match p.get "order_id", p.get "new_status" with
    | some (Value.vInt oid), some (Value.vStr ns) =>
        Except.ok (oid, ns, (p.get "notes").getD Value.vNull)
    | some _, some _ => Except.error "DataError: invalid parameter"
    | _, _ => Except.error "TypeError: missing a required argument"

/-- `UpdateOrderStatusTool.preview` (`app/tools/actions/tools.py`,
lines 254-332). -/
def update_order_status_preview (db : UpdateOrderDb) (order_id : Int)
    (new_status : String) (notes : Value) : ActionResult :=
  if !(VALID_STATUSES.contains new_status.toLower) then
    let statuses := String.intercalate ", " VALID_STATUSES
    { status := ActionStatus.cancelled, success := false,
      error := some s!"Invalid status. Must be one of: {statuses}" }
  else
    match db.getOrder order_id with
    | none =>
        { status := ActionStatus.cancelled, success := false,
          error := some s!"Order #{order_id} not found" }
    | some order =>
        let current_status := order.status
        if current_status == new_status.toLower then
          { status := ActionStatus.cancelled, success := false,
            error := some ("Order is already \x27" ++ current_status ++ "\x27") }
        else
          let status_warnings :=
            (if current_status == "cancelled" then ["⚠️ Updating a cancelled order"] else []) ++
            (if current_status == "delivered" && new_status != "cancelled" then
              ["⚠️ Order already delivered"] else [])
          let amount : Value := match order.total_amount with
            | some a => if a != 0 then Value.vRat a else Value.vInt 0
            | none => Value.vInt 0
          let dateVal : Value := match order.order_date with
            | some d => Value.vStr d
            | none => Value.vNull
          let preview_data := Value.vDict
            [("order_id", Value.vStr (toString order_id)),
             ("customer_name", Value.vStr order.customer_name),
             ("customer_email", Value.vStr order.customer_email),
             ("current_status", Value.vStr current_status),
             ("new_status", Value.vStr new_status.toLower),
             ("total_amount", amount),
             ("order_date", dateVal),
             ("notes", notes),
             ("warnings", Value.vList (status_warnings.map Value.vStr))]
          let warning_text :=
            if !status_warnings.isEmpty then
              String.intercalate "\n" status_warnings ++ "\n\n"
            else ""
          let oid := toString order_id
          let cname := order.customer_name
          let ns := new_status.toLower
          let total := fmtMoney ((order.total_amount.getD 0))
          let base_msg :=
            warning_text ++
            s!"Update order **#{oid}** for **{cname}**?\n\n" ++
            s!"Status change: **{current_status}** → **{ns}**\n" ++
            s!"Order total: ${total}"
          let nstr := pyStr notes
          let confirmation_msg :=
            if pyTruthy notes then base_msg ++ s!"\nNotes: {nstr}" else base_msg
          { status := ActionStatus.pending_confirmation, success := true,
            preview_data := some preview_data,
            confirmation_message := some confirmation_msg }

/-- `UpdateOrderStatusTool.confirm` (`app/tools/actions/tools.py`,
lines 334-364).  A raised write error propagates (no local handler). -/
def update_order_status_confirm (db : UpdateOrderDb) (order_id : Int)
    (new_status : String) (_notes : Value) : Except String ActionResult :=
  match db.updateOrder with
  | Except.ok _ =>
      let ns := new_status.toLower
      let oid := toString order_id
      Except.ok
        { status := ActionStatus.executed, success := true,
          result_message := some (s!"Order #{oid} status updated to " ++
            "\x27" ++ ns ++ "\x27"),
          data := some (Value.vDict
            [("order_id", Value.vStr (toString order_id)),
             ("new_status", Value.vStr ns),
             ("updated_at", Value.vStr db.nowIso)]) }
  | Except.error e => Except.error e

/-- The registered `update_order_status` tool. -/
def updateOrderStatusTool (db : UpdateOrderDb) : ActionToolSpec :=
  { name := "update_order_status",
    required_roles := ["admin", "manager"],
    required_fields := ["order_id", "new_status"],
    field_descriptions :=
      [("order_id", "order to update"),
       ("new_status", "new status (pending, processing, shipped, delivered, cancelled)"),
       ("notes", "optional notes about the status change")],
    preview := fun p =>
      (bindUpdateOrderArgs p).map (fun a => update_order_status_preview db a.1 a.2.1 a.2.2),
    confirm := fun p =>
      (bindUpdateOrderArgs p).bind (fun a => update_order_status_confirm db a.1 a.2.1 a.2.2) }

/-- Python `str.capitalize`: first character upper-cased, the rest lowered. -/
def pyCapitalize (s : String) : String :=
  match s.data with
  | [] => ""
  | c :: rest => String.mk (c.toUpper :: rest.map Char.toLower)

/-- Query oracles of `GenerateReportTool`.  `countRows` is the estimated-size
count keyed by `(report type, period days)`; the three row lists are the
outputs of `_generate_sales_report` / `_generate_inventory_report` /
`_generate_orders_report`, whose comprehensions reshape fetched rows
one-for-one into the dictionaries carried here. -/
structure ReportDb where
  countRows : String → Nat → Option Int
  salesRows : List (List (String × Value))
  inventoryRows : List (List (String × Value))
  ordersRows : List (List (String × Value))
  nowIso : String

/-- `GenerateReportTool.VALID_REPORT_TYPES`. -/
def VALID_REPORT_TYPES : List String := ["sales", "inventory", "orders"]

/-- `GenerateReportTool.VALID_PERIODS`. -/
def VALID_PERIODS : List String := ["day", "week", "month", "quarter"]

/-- The `period_days` table, default 30. -/
def period_days (period : String) : Nat :=
  (List.lookup period
    [("day", 1), ("week", 7), ("month", 30), ("quarter", 90)]).getD 30

/-- Binding of `**kwargs` onto `(report_type: str, period: str, format="json")`;
all three flow through `.lower()`/`.upper()`. -/
def bindReportArgs (p : Params) : Except String (String × String × String) :=
  if p.any (fun kv => !(["report_type", "period", "format"].contains kv.1)) then
    Except.error "TypeError: got an unexpected keyword argument"
  else
    match p.get "report_type", p.get "period", (p.get "format").getD (Value.vStr "json") with
    | some (Value.vStr rt), some (Value.vStr pe), Value.vStr fm => Except.ok (rt, pe, fm)
    | some _, some _, _ => Except.error "AttributeError: lower"
    | _, _, _ => Except.error "TypeError: missing a required argument"

/-- `GenerateReportTool.preview` (`app/tools/actions/tools.py`,
lines 386-447). -/
def generate_report_preview (db : ReportDb) (report_type period format : String) :
    ActionResult :=
  if !(VALID_REPORT_TYPES.contains report_type.toLower) then
    let types := String.intercalate ", " VALID_REPORT_TYPES
    { status := ActionStatus.cancelled, success := false,
      error := some s!"Invalid report type. Must be one of: {types}" }
  else if !(VALID_PERIODS.contains period.toLower) then
    let periods := String.intercalate ", " VALID_PERIODS
    { status := ActionStatus.cancelled, success := false,
      error := some s!"Invalid period. Must be one of: {periods}" }
  else
    let days := period_days period.toLower
    let estimated_rows := (db.countRows report_type.toLower days).getD 0
    let preview_data := Value.vDict
      [("report_type", Value.vStr report_type.toLower),
       ("period", Value.vStr period.toLower),
       ("period_days", Value.vInt days),
       ("format", Value.vStr format.toLower),
       ("estimated_rows", Value.vInt estimated_rows)]
    let cap := pyCapitalize report_type
    let fu := format.toUpper
    let er := toString estimated_rows
    let confirmation_msg :=
      s!"Generate **{cap} Report** for the last **{period}**?\n\n" ++
      s!"Format: {fu}\n" ++
      s!"Estimated data points: ~{er}"
    { status := ActionStatus.pending_confirmation, success := true,
      preview_data := some preview_data,
      confirmation_message := some confirmation_msg }

/-- `GenerateReportTool._to_csv`. -/
def report_to_csv (data : List (List (String × Value))) : String :=
  match data with
  | [] => ""
  | first :: _ =>
      let headers := first.map Prod.fst
      let lines := String.intercalate "," headers ::
        data.map (fun row =>
          String.intercalate ","
            (headers.map (fun h => pyStr ((List.lookup h row).getD (Value.vStr "")))))
      String.intercalate "\n" lines

/-- `GenerateReportTool.confirm` (`app/tools/actions/tools.py`,
lines 449-487). -/
def generate_report_confirm (db : ReportDb) (org_id : String)
    (report_type period format : String) : Except String ActionResult :=
  let data :=
    if report_type.toLower == "sales" then db.salesRows
    else if report_type.toLower == "inventory" then db.inventoryRows
    else db.ordersRows
  let base_report :=
    [("report_type", Value.vStr report_type.toLower),
     ("period", Value.vStr period.toLower),
     ("generated_at", Value.vStr db.nowIso),
     ("org_id", Value.vStr org_id),
     ("data", Value.vList (data.map Value.vDict))]
  let report_data :=
    if format.toLower == "csv" then
      base_report ++ [("csv_content", Value.vStr (report_to_csv data))]
    else base_report
  let cap := pyCapitalize report_type
  let n := toString data.length
  Except.ok
    { status := ActionStatus.executed, success := true,
      result_message := some s!"{cap} report generated with {n} records",
      data := some (Value.vDict report_data) }

/-- The registered `generate_report` tool. -/
def generateReportTool (db : ReportDb) (org_id : String) : ActionToolSpec :=
  { name := "generate_report",
    required_roles := ["admin", "manager", "analyst"],
    required_fields := ["report_type", "period"],
    field_descriptions :=
      [("report_type", "report type (sales, inventory, or orders)"),
       ("period", "time period (day, week, month, quarter)"),
       ("format", "output format (json or csv)")],
    preview := fun p =>
      (bindReportArgs p).map (fun a => generate_report_preview db a.1 a.2.1 a.2.2),
    confirm := fun p =>
      (bindReportArgs p).bind (fun a => generate_report_confirm db org_id a.1 a.2.1 a.2.2) }

/-- Position of the last occurrence of `needle` in `hay` (Python `rsplit`
anchor), if any. -/
def lastSubstrPos (hay needle : List Char) : Option Nat :=
  (List.range (hay.length + 1)).foldl
    (fun acc i => if needle.isPrefixOf (hay.drop i) then some i else acc) none

/-- Python `str.isdigit` restricted to ASCII digits (the inputs here are
parsed item quantities). -/
def isDigitStr (s : String) : Bool :=
  !s.isEmpty && s.data.all Char.isDigit

/-- The `"Product Name x3"` parsing shared by `_parse_items`' string cases:
lower-case the item, and when it contains `" x"`, right-split once there,
taking the stripped left part as the (lowered) name and the right part as the
quantity when it is all digits.  Otherwise the name is `elseName` (the list
branch strips it, the comma branch arrives pre-stripped) with quantity 1. -/
def parseXItem (item : String) (elseName : String) : String × Int :=
  let low := item.toLower
  match lastSubstrPos low.data [' ', 'x'] with
  | some i =>
      let name := (String.mk (low.data.take i)).trim
      let qtyStr := (String.mk (low.data.drop (i + 2))).trim
      let qty : Int := if isDigitStr qtyStr then ((qtyStr.toNat?).getD 1 : Nat) else 1
      (name, qty)
  | none => (elseName, 1)

/-- Python `int(v)` on the values `_parse_items` feeds it. -/
def pyInt : Value → Except String Int
  | Value.vInt n => Except.ok n
  | Value.vBool b => Except.ok (if b then 1 else 0)
  | Value.vStr s =>
      (match s.trim.toInt? with
       | some n => Except.ok n
       | none => Except.error "ValueError: invalid literal for int()")
  | _ => Except.error "TypeError: int() argument"

/-- The `item.get("product_name") or item.get("name") or item.get("product")`
chain (`dict.get` default `None`; Python `or` returns the first truthy operand,
else the last). -/
def itemNameChain (kvs : List (String × Value)) : Value :=
  let a := (List.lookup "product_name" kvs).getD Value.vNull
  if pyTruthy a then a
  else
    let b := (List.lookup "name" kvs).getD Value.vNull
    if pyTruthy b then b
    else (List.lookup "product" kvs).getD Value.vNull

/-- `CreateOrderTool._parse_items` (`app/tools/actions/tools.py`,
lines 633-671): parsed `(product_name, quantity)` pairs; the only raising path
is `int(item.get("quantity", 1))` in the dict case. -/
def parse_items_list : List Value → Except String (List (Value × Int))
  | [] => Except.ok []
  | Value.vDict kvs :: rest =>
      (match List.lookup "quantity" kvs with
        | none => Except.ok (1 : Int)
        | some v => pyInt v).bind (fun q =>
      (parse_items_list rest).bind (fun tail =>
      Except.ok ((itemNameChain kvs, q) :: tail)))
  | Value.vStr s :: rest =>
      let nmq := parseXItem s s.trim
      (parse_items_list rest).bind (fun tail =>
      Except.ok ((Value.vStr nmq.1, nmq.2) :: tail))
  | _ :: rest => parse_items_list rest

/-- Entry point of `_parse_items` over the three input shapes. -/
def parse_items (items_input : Value) : Except String (List (Value × Int)) :=
  match items_input with
  | Value.vList items => parse_items_list items
  | Value.vStr s =>
      Except.ok ((s.splitOn ",").filterMap (fun raw =>
        let item := raw.trim
        if item == "" then none
        else some (let nmq := parseXItem item item; (Value.vStr nmq.1, nmq.2))))
  | _ => Except.ok []

/-- Row of the priced `Product` lookups in `CreateOrderTool`
(`COALESCE(pp.actual_price, 0) as price`). -/
structure ProductPriceRow where
  product_id : Int
  name : String
  sku : String
  price : ℚ

/-- Query oracles of `CreateOrderTool`.  `insertOrderItems` stands for the
`OrderItem` insert loop: its first raised error, if any. -/
structure CreateOrderDb where
  productExact : String → Option ProductPriceRow
  productFuzzy : String → Option ProductPriceRow
  productNames : List String
  insertOrder : Except String (Option Int)
  insertOrderItems : Except String Unit

/-- `CreateOrderTool._lookup_product` applied to a parsed (dynamic) name: a
text name runs the exact-then-fuzzy lookup, `None` matches no row, and any
other value is rejected by the database driver. -/
def lookup_order_product (db : CreateOrderDb) (name : Value) :
    Except String (Option ProductPriceRow) :=
  match name with
  | Value.vStr s =>
      Except.ok (match db.productExact s with
        | some p => some p
        | none => db.productFuzzy s)
  | Value.vNull => Except.ok none
  | _ => Except.error "DataError: invalid text parameter"

/-- The item loop of `CreateOrderTool.preview`: found `(product, quantity)`
pairs in order, and the not-found error strings in order. -/
def collectPreviewItems (db : CreateOrderDb) :
    List (Value × Int) → Except String (List (ProductPriceRow × Int) × List String)
  | [] => Except.ok ([], [])
  | (nm, q) :: rest =>
      (lookup_order_product db nm).bind (fun prodOpt =>
      (collectPreviewItems db rest).bind (fun tail =>
      match prodOpt with
      | none =>
          let nms := pyStr nm
          Except.ok (tail.1, s!"Product \x27{nms}\x27 not found" :: tail.2)
      | some prod => Except.ok ((prod, q) :: tail.1, tail.2)))

/-- Order total `sum(price * quantity)` over the found items. -/
def orderTotal (found : List (ProductPriceRow × Int)) : ℚ :=
  (found.map (fun it => it.1.price * (it.2 : ℚ))).sum

/-- Keyword arguments accepted by `CreateOrderTool.preview`/`confirm`. -/
def createOrderKwargs : List String :=
  ["customer_name", "customer_email", "items", "customer_phone",
   "shipping_address", "notes", "payment_method"]

/-- Binding of `**kwargs` onto `CreateOrderTool`'s method signature (defaults
`None`); every parameter is used dynamically, so only unexpected or missing
arguments raise at the call. -/
def bindCreateOrderArgs (p : Params) :
    Except String (Value × Value × Value × Value × Value × Value × Value) :=
  if p.any (fun kv => !(createOrderKwargs.contains kv.1)) then
    Except.error "TypeError: got an unexpected keyword argument"
  else
    match p.get "customer_name", p.get "customer_email", p.get "items" with
    | some cn, some ce, some its =>
        Except.ok (cn, ce, its,
          (p.get "customer_phone").getD Value.vNull,
          (p.get "shipping_address").getD Value.vNull,
          (p.get "notes").getD Value.vNull,
          (p.get "payment_method").getD Value.vNull)
    | _, _, _ => Except.error "TypeError: missing a required argument"

/-- `CreateOrderTool.preview` (`app/tools/actions/tools.py`, lines 673-771). -/
def create_order_preview (db : CreateOrderDb)
    (customer_name customer_email items customer_phone shipping_address notes
     payment_method : Value) : Except String ActionResult :=
  (parse_items items).bind (fun parsed =>
  if parsed.isEmpty then
    Except.ok
      { status := ActionStatus.cancelled, success := false,
        error := some ("No valid items provided. Use format: " ++
          "\x27Product Name x2, Another Product x1\x27") }
  else
  (collectPreviewItems db parsed).bind (fun collected =>
  let found := collected.1
  let errors := collected.2
  if !errors.isEmpty then
    let suggestion_names := db.productNames
    let joined := String.intercalate ". " errors
    let picked := String.intercalate ", " (suggestion_names.take 3)
    let error_msg :=
      if !suggestion_names.isEmpty then joined ++ s!". Available products: {picked}"
      else joined
    Except.ok
      { status := ActionStatus.cancelled, success := false,
        error := some error_msg }
  else
  let order_items := found.map (fun it =>
    [("product_id", Value.vInt it.1.product_id),
     ("product_name", Value.vStr it.1.name),
     ("sku", Value.vStr it.1.sku),
     ("quantity", Value.vInt it.2),
     ("unit_price", Value.vRat it.1.price),
     ("item_total", Value.vRat (it.1.price * (it.2 : ℚ)))])
  let total_amount := orderTotal found
  let preview_data := Value.vDict
    [("customer_name", customer_name),
     ("customer_email", customer_email),
     ("customer_phone", customer_phone),
     ("items", Value.vList (order_items.map Value.vDict)),
     ("item_count", Value.vInt order_items.length),
     ("total_units", Value.vInt ((found.map (fun it => it.2)).sum)),
     ("total_amount", Value.vRat total_amount),
     ("shipping_address", shipping_address),
     ("payment_method", payment_method),
     ("notes", notes)]
  let items_summary := String.intercalate "\n" (found.map (fun it =>
    let nm := it.1.name
    let q := toString it.2
    let up := fmtMoney it.1.price
    let tot := fmtMoney (it.1.price * (it.2 : ℚ))
    s!"  • {nm} x{q} @ ${up} = ${tot}"))
  let cn := pyStr customer_name
  let ce := pyStr customer_email
  let ta := fmtMoney total_amount
  let base_msg :=
    s!"Create order for **{cn}** ({ce})?\n\n" ++
    s!"**Order Items:**\n{items_summary}\n\n" ++
    s!"**Total: ${ta}**"
  let pm := pyStr payment_method
  let sa := pyStr shipping_address
  let msg1 := if pyTruthy payment_method then base_msg ++ s!"\nPayment: {pm}" else base_msg
  let confirmation_msg :=
    if pyTruthy shipping_address then msg1 ++ s!"\nShipping: {sa}" else msg1
  Except.ok
    { status := ActionStatus.pending_confirmation, success := true,
      preview_data := some preview_data,
      confirmation_message := some confirmation_msg }))

/-- The item loop of `CreateOrderTool.confirm`: unlike `preview` it returns
the CANCELLED result at the first not-found product. -/
def collectConfirmItems (db : CreateOrderDb) :
    List (Value × Int) → Except String (ActionResult ⊕ List (ProductPriceRow × Int))
  | [] => Except.ok (Sum.inr [])
  | (nm, q) :: rest =>
      (lookup_order_product db nm).bind (fun prodOpt =>
      match prodOpt with
      | none =>
          let nms := pyStr nm
          Except.ok (Sum.inl
            { status := ActionStatus.cancelled, success := false,
              error := some s!"Product \x27{nms}\x27 not found" })
      | some prod =>
          (collectConfirmItems db rest).bind (fun tail =>
          match tail with
          | Sum.inl r => Except.ok (Sum.inl r)
          | Sum.inr tl => Except.ok (Sum.inr ((prod, q) :: tl))))

/-- `CreateOrderTool.confirm` (`app/tools/actions/tools.py`, lines 773-890).
The shipping-address split happens before the `try` block (a non-text truthy
value raises out of the method); inside the `try`, any write error becomes the
CANCELLED `Failed to create order: ...` result, and a missing or zero
(`if not order_id`) returned id becomes `Failed to create order`. -/
def create_order_confirm (db : CreateOrderDb)
    (customer_name customer_email items _customer_phone shipping_address _notes
     _payment_method : Value) : Except String ActionResult :=
  (parse_items items).bind (fun parsed =>
  (collectConfirmItems db parsed).bind (fun collected =>
  match collected with
  | Sum.inl r => Except.ok r
  | Sum.inr found =>
    let total_amount := orderTotal found
    -- shipping_parts feed only the INSERT placeholders (absorbed by the
    -- oracle); the observable behaviour is the AttributeError on a truthy
    -- non-text address.
    (match shipping_address with
      | Value.vStr s => Except.ok ((s.splitOn ",").map String.trim)
      | v => if pyTruthy v then Except.error "AttributeError: split"
             else Except.ok []).bind (fun _shipping_parts =>
    match db.insertOrder with
    | Except.error e =>
        Except.ok
          { status := ActionStatus.cancelled, success := false,
            error := some s!"Failed to create order: {e}" }
    | Except.ok row =>
      match row with
      | none =>
          Except.ok
            { status := ActionStatus.cancelled, success := false,
              error := some "Failed to create order" }
      | some oid =>
        if oid == 0 then
          Except.ok
            { status := ActionStatus.cancelled, success := false,
              error := some "Failed to create order" }
        else
          match db.insertOrderItems with
          | Except.error e =>
              Except.ok
                { status := ActionStatus.cancelled, success := false,
                  error := some s!"Failed to create order: {e}" }
          | Except.ok _ =>
              let oidStr := toString oid
              let cn := pyStr customer_name
              let ta := fmtMoney total_amount
              Except.ok
                { status := ActionStatus.executed, success := true,
                  created_id := some oidStr,
                  result_message :=
                    some s!"Order #{oidStr} created for {cn} - ${ta}",
                  data := some (Value.vDict
                    [("order_id", Value.vStr oidStr),
                     ("customer_name", customer_name),
                     ("customer_email", customer_email),
                     ("total_amount", Value.vRat total_amount),
                     ("item_count", Value.vInt found.length),
                     ("status", Value.vStr "pending")]) })))

/-- The registered `create_order` tool. -/
def createOrderTool (db : CreateOrderDb) : ActionToolSpec :=
  { name := "create_order",
    required_roles := ["admin", "manager"],
    required_fields :=
      ["customer_name", "customer_email", "items", "payment_method", "shipping_address"],
    field_descriptions :=
      [("customer_name", "customer\x27s full name"),
       ("customer_email", "customer\x27s email address"),
       ("items", "products and quantities (e.g., \x27iPhone 17 Pro Max x2, Samsung Galaxy x1\x27)"),
       ("payment_method", "payment method (cash, card, bank_transfer, upi, etc.)"),
       ("shipping_address", "shipping address (street, city, state, zip code)"),
       ("customer_phone", "customer\x27s phone number (optional)"),
       ("notes", "any special instructions or notes (optional)")],
    preview := fun p =>
      (bindCreateOrderArgs p).bind (fun a =>
        create_order_preview db a.1 a.2.1 a.2.2.1 a.2.2.2.1 a.2.2.2.2.1
          a.2.2.2.2.2.1 a.2.2.2.2.2.2),
    confirm := fun p =>
      (bindCreateOrderArgs p).bind (fun a =>
        create_order_confirm db a.1 a.2.1 a.2.2.1 a.2.2.2.1 a.2.2.2.2.1
          a.2.2.2.2.2.1 a.2.2.2.2.2.2) }

/-- `ACTION_TOOLS` / `get_action_tools`: the registered mutating capabilities,
instantiated over their query oracles. -/
def registeredActionTools (rdb : ReorderDb) (udb : UpdateOrderDb)
    (gdb : ReportDb) (org_id : String) (cdb : CreateOrderDb) : List ActionToolSpec :=
  [createReorderRequestTool rdb,
   updateOrderStatusTool udb,
   generateReportTool gdb org_id,
   createOrderTool cdb]

/-! ## Sample oracles and inputs used by the scenario theorems -/

/-- Field lookup inside a result's `preview_data` dictionary. -/
def resultPreviewField (r : ActionResult) (k : String) : Option Value :=
  match r.preview_data with
  | some (Value.vDict kvs) => List.lookup k kvs
  | _ => none

/-- A catalogue product for the round-trip scenario. -/
def sampleProduct : ProductRow :=
  { product_id := 1, name := "Widget", sku := "W-1" }

/-- A warehouse for the round-trip scenario. -/
def sampleWarehouse : WarehouseRow :=
  { warehouse_id := 2, name := "Main" }

/-- Reorder-tool oracle where `Widget`/`Main` resolve, stock is 3 units and
the insert returns id 77. -/
def reorderDbOk : ReorderDb :=
  { productExact := fun s => if s == "Widget" then some sampleProduct else none,
    productFuzzy := fun _ => none,
    warehouseExact := fun s => if s == "Main" then some sampleWarehouse else none,
    warehouseFuzzy := fun _ => none,
    productNames := ["Widget"],
    warehouseNames := ["Main"],
    stockQty := fun pid wid => if pid == 1 && wid == 2 then some 3 else none,
    insertReorder := Except.ok (some 77) }

/-- Reorder-tool oracle where no product resolves and five products exist. -/
def reorderDbNotFound : ReorderDb :=
  { productExact := fun _ => none,
    productFuzzy := fun _ => none,
    warehouseExact := fun _ => none,
    warehouseFuzzy := fun _ => none,
    productNames := ["Alpha", "Beta", "Gamma", "Delta", "Epsilon"],
    warehouseNames := [],
    stockQty := fun _ _ => none,
    insertReorder := Except.ok none }

/-- Order-status oracle with no orders. -/
def sampleUpdateOrderDb : UpdateOrderDb :=
  { getOrder := fun _ => none,
    updateOrder := Except.ok (),
    nowIso := "2026-01-01T00:00:00+00:00" }

/-- Report oracle with no data. -/
def sampleReportDb : ReportDb :=
  { countRows := fun _ _ => none,
    salesRows := [], inventoryRows := [], ordersRows := [],
    nowIso := "2026-01-01T00:00:00+00:00" }

/-- Create-order oracle with no products. -/
def sampleCreateOrderDb : CreateOrderDb :=
  { productExact := fun _ => none,
    productFuzzy := fun _ => none,
    productNames := [],
    insertOrder := Except.ok (some 5),
    insertOrderItems := Except.ok () }

/-- Round-trip scenario params missing the warehouse name. -/
def reorderParamsMissing : Params :=
  [("product_name", Value.vStr "Widget"), ("quantity", Value.vInt 10)]

/-- Round-trip scenario params naming a product that resolves to nothing. -/
def reorderParamsUnknown : Params :=
  [("product_name", Value.vStr "X"), ("warehouse_name", Value.vStr "Y"),
   ("quantity", Value.vInt 10)]

/-- Round-trip scenario params that resolve. -/
def reorderParamsGood : Params :=
  [("product_name", Value.vStr "Widget"), ("warehouse_name", Value.vStr "Main"),
   ("quantity", Value.vInt 10)]

/-- Params with an unexpected keyword argument, making the tool method call
raise a `TypeError` inside `run_action`'s `try` block. -/
def reorderParamsBogus : Params :=
  [("product_name", Value.vStr "Widget"), ("warehouse_name", Value.vStr "Main"),
   ("quantity", Value.vInt 10), ("bogus", Value.vInt 1)]

/-! ## Helper lemmas -/

/-- Every result of the reorder tool's `preview` is CANCELLED or
PENDING_CONFIRMATION, never EXECUTED. -/
theorem reorder_preview_ne_executed (db : ReorderDb) (pn wn : String) (q : Value)
    (pr : String) (nt : Value) :
    (reorder_preview db pn wn q pr nt).status ≠ ActionStatus.executed := by
  unfold reorder_preview
  cases reorder_lookup_product db pn with
  | none => simp
  | some product =>
    cases reorder_lookup_warehouse db wn with
    | none => simp
    | some w => simp

/-- Every result of the order-status tool's `preview` is CANCELLED or
PENDING_CONFIRMATION, never EXECUTED. -/
theorem update_order_status_preview_ne_executed (db : UpdateOrderDb) (oid : Int)
    (ns : String) (nt : Value) :
    (update_order_status_preview db oid ns nt).status ≠ ActionStatus.executed := by
  unfold update_order_status_preview
  repeat' split
  all_goals simp [apply_ite ActionResult.status]
  all_goals split <;> simp

/-- Every result of the report tool's `preview` is CANCELLED or
PENDING_CONFIRMATION, never EXECUTED. -/
theorem generate_report_preview_ne_executed (db : ReportDb) (rt pe fm : String) :
    (generate_report_preview db rt pe fm).status ≠ ActionStatus.executed := by
  unfold generate_report_preview
  repeat' split
  all_goals simp [apply_ite ActionResult.status]

/-- Every normal result of the create-order tool's `preview` is CANCELLED or
PENDING_CONFIRMATION, never EXECUTED. -/
theorem create_order_preview_ok_ne_executed (db : CreateOrderDb)
    (a b c d e f g : Value) (r : ActionResult)
    (h : create_order_preview db a b c d e f g = Except.ok r) :
    r.status ≠ ActionStatus.executed := by
  unfold create_order_preview at h
  cases hp : parse_items c with
  | error ex => rw [hp] at h; simp [Except.bind] at h
  | ok parsed =>
    rw [hp] at h
    simp only [Except.bind] at h
    split at h
    · rw [Except.ok.injEq] at h; subst h; simp
    · cases hc : collectPreviewItems db parsed with
      | error ex => rw [hc] at h; simp [Except.bind] at h
      | ok collected =>
        rw [hc] at h
        simp only [Except.bind] at h
        split at h
        · rw [Except.ok.injEq] at h; subst h; simp
        · rw [Except.ok.injEq] at h; subst h; simp

/-- On the unconfirmed path `run_action` forwards the tool's `preview` result
(or converts its exception to CANCELLED) and never calls `confirm`; so if the
tool's `preview` never answers EXECUTED, neither does the unconfirmed
`run_action`. -/
theorem run_action_unconfirmed_cases (t : ActionToolSpec) (role : String) (p : Params)
    (hprev : ∀ r, t.preview p = Except.ok r → r.status ≠ ActionStatus.executed) :
    (run_action t role false p).1.status ≠ ActionStatus.executed ∧
    WfEvent.confirmCall ∉ (run_action t role false p).2 := by
  unfold run_action
  split
  · exact ⟨by simp, by simp⟩
  · by_cases hv : (validate_inputs t.required_fields p).1 = true
    · cases hp : t.preview p with
      | ok r =>
        constructor
        · simpa [hv, hp] using hprev r hp
        · simp [hv, hp]
      | error e =>
        constructor
        · simp [hv, hp]
        · simp [hv, hp]
    · have hv2 : (validate_inputs t.required_fields p).1 = false := by
        cases hb : (validate_inputs t.required_fields p).1
        · rfl
        · exact absurd hb hv
      constructor
      · simp [hv2]
      · simp [hv2]

/-- C1: For every registered mutating capability and every parameter
assignment, `run_action` with `confirmed=false` never returns an EXECUTED
result: the unconfirmed path only reaches `preview` (which for every
registered tool answers CANCELLED or PENDING_CONFIRMATION) and never calls
`confirm`. -/
theorem C1_run_action_unconfirmed_never_executed
    (rdb : ReorderDb) (udb : UpdateOrderDb) (gdb : ReportDb) (org_id : String)
    (cdb : CreateOrderDb) (t : ActionToolSpec)
    (ht : t ∈ registeredActionTools rdb udb gdb org_id cdb)
    (role : String) (p : Params) :
    (run_action t role false p).1.status ≠ ActionStatus.executed ∧
    WfEvent.confirmCall ∉ (run_action t role false p).2 := by
  have hmem := ht
  simp only [registeredActionTools, List.mem_cons, List.not_mem_nil, or_false] at hmem
  rcases hmem with h | h | h | h
  · subst h
    apply run_action_unconfirmed_cases
    intro r hr
    simp only [createReorderRequestTool] at hr
    cases hb : bindReorderArgs p with
    | error e => rw [hb] at hr; simp [Except.map] at hr
    | ok a =>
      rw [hb] at hr
      simp only [Except.map, Except.ok.injEq] at hr
      rw [← hr]
      apply reorder_preview_ne_executed
  · subst h
    apply run_action_unconfirmed_cases
    intro r hr
    simp only [updateOrderStatusTool] at hr
    cases hb : bindUpdateOrderArgs p with
    | error e => rw [hb] at hr; simp [Except.map] at hr
    | ok a =>
      rw [hb] at hr
      simp only [Except.map, Except.ok.injEq] at hr
      rw [← hr]
      apply update_order_status_preview_ne_executed
  · subst h
    apply run_action_unconfirmed_cases
    intro r hr
    simp only [generateReportTool] at hr
    cases hb : bindReportArgs p with
    | error e => rw [hb] at hr; simp [Except.map] at hr
    | ok a =>
      rw [hb] at hr
      simp only [Except.map, Except.ok.injEq] at hr
      rw [← hr]
      apply generate_report_preview_ne_executed
  · subst h
    apply run_action_unconfirmed_cases
    intro r hr
    simp only [createOrderTool] at hr
    cases hb : bindCreateOrderArgs p with
    | error e => rw [hb] at hr; simp [Except.bind] at hr
    | ok a =>
      rw [hb] at hr
      simp only [Except.bind] at hr
      exact create_order_preview_ok_ne_executed cdb _ _ _ _ _ _ _ r hr

/-- Witness for C1 at the first registered tool, an unauthorised role and the
empty parameter assignment. -/
theorem C1_witness :
    (run_action (createReorderRequestTool reorderDbOk) "viewer" false []).1.status ≠
      ActionStatus.executed ∧
    WfEvent.confirmCall ∉ (run_action (createReorderRequestTool reorderDbOk) "viewer" false []).2 :=
  C1_run_action_unconfirmed_never_executed reorderDbOk sampleUpdateOrderDb
    sampleReportDb "org_1" sampleCreateOrderDb _ (List.mem_cons_self _ _) "viewer" []

/-- C5: Whenever at least one declared required field is absent or null (and
the caller passed the role check, which the workflow runs first), `run_action`
with either value of `confirmed` returns MISSING_DATA whose `missing_fields`
are exactly the absent-or-null required fields, and neither `preview` nor
`confirm` is invoked. -/
theorem C5_missing_fields_exact (t : ActionToolSpec) (role : String)
    (confirmed : Bool) (p : Params)
    (hperm : check_permission t.required_roles role = true)
    (hmiss : t.required_fields.filter (fun f => fieldMissing p f) ≠ []) :
    (run_action t role confirmed p).1.status = ActionStatus.missing_data ∧
    (run_action t role confirmed p).1.missing_fields =
      t.required_fields.filter (fun f => fieldMissing p f) ∧
    WfEvent.previewCall ∉ (run_action t role confirmed p).2 ∧
    WfEvent.confirmCall ∉ (run_action t role confirmed p).2 := by
  have hex : ∃ x ∈ t.required_fields, fieldMissing p x = true := by
    by_contra hno
    push_neg at hno
    exact hmiss (List.filter_eq_nil_iff.mpr hno)
  refine ⟨?_, ?_, ?_, ?_⟩ <;> simp [run_action, hperm, hex, validate_inputs]

/-- Witness for C5: the reorder tool with every parameter absent. -/
theorem C5_witness :
    (run_action (createReorderRequestTool reorderDbOk) "admin" false []).1.status =
      ActionStatus.missing_data ∧
    (run_action (createReorderRequestTool reorderDbOk) "admin" false []).1.missing_fields =
      (createReorderRequestTool reorderDbOk).required_fields.filter
        (fun f => fieldMissing [] f) ∧
    WfEvent.previewCall ∉ (run_action (createReorderRequestTool reorderDbOk) "admin" false []).2 ∧
    WfEvent.confirmCall ∉ (run_action (createReorderRequestTool reorderDbOk) "admin" false []).2 :=
  C5_missing_fields_exact (createReorderRequestTool reorderDbOk) "admin" false []
    (by decide) (by decide)

/-- C6: With a non-empty allow-list, a caller whose role is neither in the
list nor the admin override gets a CANCELLED result carrying the permission
error, and the engine performs no validation, no preview and no confirm (hence
no database access) for any parameter assignment and either `confirmed`
value. -/
theorem C6_permission_denied_before_validation (t : ActionToolSpec)
    (role : String) (confirmed : Bool) (p : Params)
    (h1 : t.required_roles ≠ []) (h2 : role ∉ t.required_roles)
    (h3 : role ≠ "admin") :
    (run_action t role confirmed p).1.status = ActionStatus.cancelled ∧
    (run_action t role confirmed p).1.success = false ∧
    (run_action t role confirmed p).1.error =
      some ("Permission denied. Required roles: " ++ pyListRepr t.required_roles) ∧
    (run_action t role confirmed p).2 = [] := by
  have hne : t.required_roles.isEmpty = false := by
    cases hr : t.required_roles with
    | nil => exact absurd hr h1
    | cons a l => rfl
  have hcp : check_permission t.required_roles role = false := by
    unfold check_permission
    rw [hne]
    simp only [Bool.false_eq_true, if_false]
    rw [if_neg]
    · simp only [List.contains, List.elem_eq_mem, decide_eq_false_iff_not]
      exact h2
    · simp only [beq_iff_eq]
      exact h3
  refine ⟨?_, ?_, ?_, ?_⟩ <;> simp [run_action, hcp]

/-- Witness for C6: the reorder tool called by a `viewer`. -/
theorem C6_witness :
    (run_action (createReorderRequestTool reorderDbOk) "viewer" true reorderParamsGood).1.status =
      ActionStatus.cancelled ∧
    (run_action (createReorderRequestTool reorderDbOk) "viewer" true reorderParamsGood).1.success =
      false ∧
    (run_action (createReorderRequestTool reorderDbOk) "viewer" true reorderParamsGood).1.error =
      some ("Permission denied. Required roles: " ++
        pyListRepr (createReorderRequestTool reorderDbOk).required_roles) ∧
    (run_action (createReorderRequestTool reorderDbOk) "viewer" true reorderParamsGood).2 = [] :=
  C6_permission_denied_before_validation (createReorderRequestTool reorderDbOk)
    "viewer" true reorderParamsGood (by decide) (by decide) (by decide)

/-- C10: `run_action` is total at the engine boundary (it returns an
`ActionResult` on every path by construction) and converts any exception
raised by the invoked tool method — `preview` when unconfirmed, `confirm` when
confirmed — into a CANCELLED result with `success=false` and the exception
message as the error. -/
theorem C10_exception_becomes_cancelled (t : ActionToolSpec) (role : String)
    (confirmed : Bool) (p : Params) (e : String)
    (hperm : check_permission t.required_roles role = true)
    (hvalid : (validate_inputs t.required_fields p).1 = true)
    (hexc : (if confirmed then t.confirm p else t.preview p) = Except.error e) :
    (run_action t role confirmed p).1.status = ActionStatus.cancelled ∧
    (run_action t role confirmed p).1.success = false ∧
    (run_action t role confirmed p).1.error = some e := by
  cases confirmed with
  | false =>
    rw [if_neg (by simp)] at hexc
    refine ⟨?_, ?_, ?_⟩ <;> simp [run_action, hperm, hvalid, hexc]
  | true =>
    rw [if_pos rfl] at hexc
    refine ⟨?_, ?_, ?_⟩ <;> simp [run_action, hperm, hvalid, hexc]

/-- Witness for C10: an unexpected keyword argument makes the reorder tool's
method call raise, and `run_action` answers CANCELLED with that message. -/
theorem C10_witness :
    (run_action (createReorderRequestTool reorderDbOk) "admin" false reorderParamsBogus).1.status =
      ActionStatus.cancelled ∧
    (run_action (createReorderRequestTool reorderDbOk) "admin" false reorderParamsBogus).1.success =
      false ∧
    (run_action (createReorderRequestTool reorderDbOk) "admin" false reorderParamsBogus).1.error =
      some "TypeError: got an unexpected keyword argument" :=
  C10_exception_becomes_cancelled (createReorderRequestTool reorderDbOk) "admin"
    false reorderParamsBogus "TypeError: got an unexpected keyword argument"
    (by decide) (by decide) rfl

/-- C2 counterexample: with remaining = 5 and estimate 5, the real-valued
requirement 5*(1+0.1) = 5.5 exceeds remaining, yet `check_quota` returns ok,
because the source truncates the requirement to an integer
(`int(estimated * 1.1)` = 5).  So the claim "raises whenever e*(1+buffer)
exceeds remaining" is false as stated. -/
theorem C2_counterexample :
    check_quota "org_1" (some 995) (some 1000) 5 = CheckQuotaResult.ok ∧
    ((get_quota "org_1" (some 995) (some 1000)).remaining : ℚ) <
      (5 : ℚ) * (1 + 1 / 10) := by
  constructor
  · rfl
  · norm_num [get_quota, default_org_token_limit]

/-- C2 amended: for every estimate below `2^46` — the range in which the
source's double computation `int(e * (1 + buffer))` provably evaluates to
`⌊e*(1+buffer)⌋`, see `requiredWithBuffer` — `check_quota` raises
QuotaExceeded exactly when remaining is below that truncated requirement,
returns ok whenever remaining is at least it, and at the exact threshold
(remaining equal to the required amount) returns ok. -/
theorem C2_amended_floor_threshold (org : String) (usedRaw limitRaw : Option Nat)
    (e : Nat) (he : e < 2 ^ 46) :
    ((requiredWithBuffer e : ℤ) = ⌊(e : ℚ) * (1 + 1 / 10)⌋) ∧
    ((get_quota org usedRaw limitRaw).remaining < requiredWithBuffer e →
      isQuotaExceeded (check_quota org usedRaw limitRaw e) = true) ∧
    (requiredWithBuffer e ≤ (get_quota org usedRaw limitRaw).remaining →
      check_quota org usedRaw limitRaw e = CheckQuotaResult.ok) ∧
    ((get_quota org usedRaw limitRaw).remaining = requiredWithBuffer e →
      check_quota org usedRaw limitRaw e = CheckQuotaResult.ok) := by
  refine ⟨?_, ?_, ?_, ?_⟩
  · have h1 : (e : ℚ) * (1 + 1 / 10) = ((11 * e : ℕ) : ℚ) / ((10 : ℕ) : ℚ) := by
      push_cast
      ring
    rw [h1, Rat.floor_natCast_div_natCast]
    unfold requiredWithBuffer
    rw [Nat.mul_comm]
    omega
  · intro h
    simp [check_quota, isQuotaExceeded, h]
  · intro h
    have h2 := Nat.not_lt.mpr h
    simp [check_quota, h2]
  · intro h
    have h2 : ¬ ((get_quota org usedRaw limitRaw).remaining < requiredWithBuffer e) := by
      omega
    simp [check_quota, h2]

/-- Witness for the amended C2 at concrete ledgers: raise below the truncated
requirement, ok above it, ok at the exact threshold. -/
theorem C2_amended_witness :
    isQuotaExceeded (check_quota "org_1" (some 995) (some 1000) 6) = true ∧
    check_quota "org_1" (some 995) (some 1000) 4 = CheckQuotaResult.ok ∧
    check_quota "org_2" (some 0) (some 11) 10 = CheckQuotaResult.ok :=
  ⟨(C2_amended_floor_threshold "org_1" (some 995) (some 1000) 6
      (by norm_num)).2.1 (by decide),
   (C2_amended_floor_threshold "org_1" (some 995) (some 1000) 4
      (by norm_num)).2.2.1 (by decide),
   (C2_amended_floor_threshold "org_2" (some 0) (some 11) 10
      (by norm_num)).2.2.2 (by decide)⟩

/-- C8: with limit 1000 and used 950 (remaining 50) under the default 10%
buffer, `check_quota(100)` requires 110 and raises QuotaExceeded, while
`check_quota(40)` requires 44 and returns ok. -/
theorem C8_quota_scenario :
    (get_quota "org_1" (some 950) (some 1000)).remaining = 50 ∧
    requiredWithBuffer 100 = 110 ∧
    isQuotaExceeded (check_quota "org_1" (some 950) (some 1000) 100) = true ∧
    requiredWithBuffer 40 = 44 ∧
    check_quota "org_1" (some 950) (some 1000) 40 = CheckQuotaResult.ok :=
  ⟨rfl, rfl, rfl, rfl, rfl⟩

/-- C3: for every org ledger state, task type and complexity, the allocation
satisfies `routing_budget + agent_budget + reserve = total_budget`, and
`total_budget` never exceeds the remaining quota read from the ledger. -/
theorem C3_budget_allocation_invariant (org : String) (usedRaw limitRaw : Option Nat)
    (task_type complexity : String) :
    (allocate_budget org usedRaw limitRaw task_type complexity).routing_budget +
      (allocate_budget org usedRaw limitRaw task_type complexity).agent_budget +
      (allocate_budget org usedRaw limitRaw task_type complexity).reserve =
      (allocate_budget org usedRaw limitRaw task_type complexity).total_budget ∧
    (allocate_budget org usedRaw limitRaw task_type complexity).total_budget ≤
      (get_quota org usedRaw limitRaw).remaining := by
  simp only [allocate_budget]
  split_ifs <;> constructor <;> omega

/-- C9: a failed classification call never propagates: `classify_node`
swallows the exception and installs the default "general" intent and the
general handler; independently, any intent label outside the dispatch table
maps to the general handler. -/
theorem C9_classification_failure_defaults (st : RouterState) (e : String)
    (label : String) (h : label ∉ INTENT_AGENT_MAP.map Prod.fst) :
    (classify_node st (Except.error e)).intent = some "general" ∧
    (classify_node st (Except.error e)).agent = some "general_agent" ∧
    get_agent_for_intent label = "general_agent" := by
  refine ⟨rfl, rfl, ?_⟩
  simp only [INTENT_AGENT_MAP, List.map, List.mem_cons, List.not_mem_nil,
    or_false, not_or] at h
  obtain ⟨h1, h2, h3, h4, h5⟩ := h
  have b1 : (label == "analytics") = false := beq_eq_false_iff_ne.mpr h1
  have b2 : (label == "inventory") = false := beq_eq_false_iff_ne.mpr h2
  have b3 : (label == "orders") = false := beq_eq_false_iff_ne.mpr h3
  have b4 : (label == "insights") = false := beq_eq_false_iff_ne.mpr h4
  have b5 : (label == "general") = false := beq_eq_false_iff_ne.mpr h5
  simp [get_agent_for_intent, INTENT_AGENT_MAP, List.lookup, b1, b2, b3, b4, b5]

/-- Witness for C9 at a concrete state, error and out-of-table label. -/
theorem C9_witness :
    (classify_node { input := "hi" } (Except.error "boom")).intent = some "general" ∧
    (classify_node { input := "hi" } (Except.error "boom")).agent = some "general_agent" ∧
    get_agent_for_intent "weather" = "general_agent" :=
  C9_classification_failure_defaults { input := "hi" } "boom" "weather" (by decide)

/-- Inside a handler body, the usage recording immediately follows each
metered call made through `invoke_llm`. -/
theorem handler_calls_trace_record (n i : Nat)
    (h : (handler_calls_trace n).get? i = some MeterEvent.llmCallEv) :
    (handler_calls_trace n).get? (i + 1) = some MeterEvent.recordUsageEv := by
  induction n generalizing i with
  | zero => simp [handler_calls_trace] at h
  | succ n ih =>
    match i with
    | 0 => simp [handler_calls_trace, invoke_llm_meter_trace]
    | 1 => simp [handler_calls_trace, invoke_llm_meter_trace] at h
    | 2 => simp [handler_calls_trace, invoke_llm_meter_trace] at h
    | (m + 3) =>
      have h2 : (handler_calls_trace n).get? m = some MeterEvent.llmCallEv := by
        simpa [handler_calls_trace, invoke_llm_meter_trace] using h
      have h3 := ih m h2
      simpa [handler_calls_trace, invoke_llm_meter_trace] using h3

/-- C4 amended: every metered call made by a specialist handler through
`BaseAgent.run`/`invoke_llm` is wrapped — the admission check completes
before it (it opens the trace) and its usage recording follows it.  This is
`llmWrapped` for `base_agent_run_trace`, in unfolded form.  (The turn's
intent-classification call is not wrapped: see the counterexample.) -/
theorem C4_amended_handler_calls_wrapped (quotaOk : Bool) (n i : Nat)
    (h : (base_agent_run_trace quotaOk n).get? i = some MeterEvent.llmCallEv) :
    (∃ j, j < i ∧ ∃ ok, (base_agent_run_trace quotaOk n).get? j =
        some (MeterEvent.checkQuotaEv ok)) ∧
    (∃ k, i < k ∧ (base_agent_run_trace quotaOk n).get? k =
        some MeterEvent.recordUsageEv) := by
  cases quotaOk with
  | false => rcases i with _ | m <;> simp [base_agent_run_trace] at h
  | true =>
    rcases i with _ | m
    · simp [base_agent_run_trace] at h
    · have h2 : (handler_calls_trace n).get? m = some MeterEvent.llmCallEv := by
        simpa [base_agent_run_trace] using h
      constructor
      · exact ⟨0, Nat.succ_pos m, true, by simp [base_agent_run_trace]⟩
      · refine ⟨m + 2, by omega, ?_⟩
        have h3 := handler_calls_trace_record n m h2
        simpa [base_agent_run_trace] using h3

/-- Witness for the amended C4: in a run with one handler call, the metered
call at position 1 is wrapped. -/
theorem C4_amended_witness :
    (base_agent_run_trace true 1).get? 1 = some MeterEvent.llmCallEv ∧
    ((∃ j, j < 1 ∧ ∃ ok, (base_agent_run_trace true 1).get? j =
        some (MeterEvent.checkQuotaEv ok)) ∧
     (∃ k, 1 < k ∧ (base_agent_run_trace true 1).get? k =
        some MeterEvent.recordUsageEv)) :=
  ⟨rfl, C4_amended_handler_calls_wrapped true 1 1 rfl⟩

/-- C4 counterexample: the intent-classification call is metered but not
wrapped.  A turn routed to the general handler consists of exactly that call,
with no quota check before it and no usage recording after it, so "every
external inference call in a turn is wrapped" fails. -/
theorem C4_counterexample :
    ¬ llmWrapped (turn_meter_trace
        { input := "hi", intent := some "general", agent := some "general_agent" }
        true 0) := by
  intro h
  have h0 := h 0 (by rfl)
  obtain ⟨⟨j, hj, _⟩, _⟩ := h0
  omega

/-- C7: the reorder round trip.  Omitting the warehouse name yields
MISSING_DATA listing exactly `warehouse_name`; an unresolvable product yields
CANCELLED with a not-found error listing at most 3 (here exactly 3 of 5)
suggested product names; valid params yield PENDING_CONFIRMATION whose
preview carries the current stock and requested quantity, and the confirmed
call then returns EXECUTED with the created id. -/
theorem C7_reorder_round_trip :
    (run_action (createReorderRequestTool reorderDbOk) "manager" false
        reorderParamsMissing).1.status = ActionStatus.missing_data ∧
    (run_action (createReorderRequestTool reorderDbOk) "manager" false
        reorderParamsMissing).1.missing_fields = ["warehouse_name"] ∧
    (run_action (createReorderRequestTool reorderDbNotFound) "manager" false
        reorderParamsUnknown).1.status = ActionStatus.cancelled ∧
    (run_action (createReorderRequestTool reorderDbNotFound) "manager" false
        reorderParamsUnknown).1.success = false ∧
    (run_action (createReorderRequestTool reorderDbNotFound) "manager" false
        reorderParamsUnknown).1.error =
      some "Product \x27X\x27 not found. Did you mean: Alpha, Beta, Gamma?" ∧
    (run_action (createReorderRequestTool reorderDbOk) "manager" false
        reorderParamsGood).1.status = ActionStatus.pending_confirmation ∧
    resultPreviewField (run_action (createReorderRequestTool reorderDbOk) "manager" false
        reorderParamsGood).1 "current_stock" = some (Value.vInt 3) ∧
    resultPreviewField (run_action (createReorderRequestTool reorderDbOk) "manager" false
        reorderParamsGood).1 "quantity_to_order" = some (Value.vInt 10) ∧
    (run_action (createReorderRequestTool reorderDbOk) "manager" true
        reorderParamsGood).1.status = ActionStatus.executed ∧
    (run_action (createReorderRequestTool reorderDbOk) "manager" true
        reorderParamsGood).1.created_id = some "77" :=
  ⟨rfl, rfl, rfl, rfl, rfl, rfl, rfl, rfl, rfl, rfl⟩
